import Mathlib

/-!
Verification of the order-pricing and checkout state machine of
`src/backend/server.py` (CLOTH storefront backend).

Embedding conventions:
- Python `float` money values are modelled as exact rationals (`ℚ`); the
  pricing claims are about the algebraic structure of the computation.
- Python `datetime` values are modelled by `PyDatetime`: the instant the
  clock fields denote when read as UTC (`asUtc : ℤ`) together with an
  `aware : Bool` flag recording whether `tzinfo` is present, mirroring
  the normalisation `expiry.replace(tzinfo=timezone.utc)` at
  server.py:418-420.
- The MongoDB collections touched by the core (carts, orders, coupons)
  are modelled as association lists inside `DBState`; `update_one` on a
  key that the application keeps unique is modelled as a `map` over the
  list.  `gatewayCalls` counts attempts to open a remote gateway order.
- The Razorpay client is external: opening a remote order is a
  `mock : Bool` flag (server.py:783 checks the test-secret / missing
  client) together with the production call's outcome
  `Except Unit String`; signature verification is a boolean-valued
  function of the three request strings, where `false` covers both a
  wrong signature and a transport error (server.py:836-840 both set
  `payment_verified = False`).
- `HTTPException`s raised by the handlers become `Except` errors; the
  handlers return the (possibly updated) `DBState` together with the
  result, so that "state unchanged on error" is expressible.
- Fields irrelevant to every claim (`created_at` timestamps, image/
  category display strings are kept, response key id is dropped) follow
  the source records otherwise.
-/

/-- Line item as stored in a cart and snapshotted into an order
(server.py:226-241): denormalised display fields, selected size/colour,
quantity. -/
structure CartItem where
  id : String
  productId : String
  name : String
  price : ℚ
  image : String
  category : String
  selectedSize : String
  selectedColor : String
  quantity : ℕ
  deriving DecidableEq

/-- A Python `datetime`: `asUtc` is the instant obtained by reading its
clock fields as UTC, `aware` records whether `tzinfo` is set. -/
structure PyDatetime where
  asUtc : ℤ
  aware : Bool
  deriving DecidableEq

/-- Coupon record (server.py:192-201). Optional numeric fields model
Python `Optional` fields; the source tests them for truthiness. -/
structure Coupon where
  code : String
  type : String
  value : ℚ
  minOrder : Option ℚ
  maxDiscount : Option ℚ
  expiryDate : Option PyDatetime
  usageLimit : Option ℤ
  usedCount : ℤ
  description : Option String
  deriving DecidableEq

/-- Order document (server.py:297-311); `orderId` plays the role of the
generated Mongo `_id`. -/
structure OrderDoc where
  orderId : String
  userId : String
  items : List CartItem
  amount : ℚ
  amount_subtotal : ℚ
  amount_tax : ℚ
  amount_shipping : ℚ
  amount_discount : ℚ
  status : String
  razorpay_order_id : String
  razorpay_payment_id : Option String
  razorpay_signature : Option String
  address_name : String
  address_email : String
  coupon_code : Option String
  created_at : ℤ
  deriving DecidableEq

/-- Authenticated principal supplied by the identity layer. -/
structure PyUser where
  id : String
  name : String
  email : String
  deriving DecidableEq

/-- Body of `POST /orders/verify` (server.py:327-331). -/
structure VerifyRequest where
  razorpay_order_id : String
  razorpay_payment_id : String
  razorpay_signature : String
  db_order_id : String
  deriving DecidableEq

/-- The fields of `CreateOrderResponse` the core computes
(server.py:318-324, minus the static gateway key id). -/
structure CreateOrderResult where
  db_order_id : String
  razorpay_order_id : String
  amount : ℚ
  user_name : String
  user_email : String
  deriving DecidableEq

/-- The document-store state the checkout core reads and writes: carts
keyed by user id, orders, coupons, plus a counter of remote gateway
order-creation attempts. -/
structure DBState where
  carts : List (String × List CartItem)
  orders : List OrderDoc
  coupons : List Coupon
  gatewayCalls : ℕ
  deriving DecidableEq

/-- The four coupon-validation failures of `get_valid_coupon`
(server.py:413-429). -/
inductive CouponError where
  | notFound
  | expired
  | exhausted
  | minimumNotMet
  deriving DecidableEq

/-- Failures of `create_order` (server.py:744-745, 793-795). -/
inductive CreateOrderError where
  | emptyCart
  | gatewayError
  deriving DecidableEq

/-- Failures of `verify_payment` (server.py:845-850). -/
inductive VerifyError where
  | verificationFailed
  | orderNotFound
  deriving DecidableEq

/-- Python truthiness of an `Optional[float]`: `None` and `0.0` are
falsy. -/
def truthyQ : Option ℚ → Bool
  | none => false
  | some v => v != 0

/-- Python truthiness of an `Optional[int]`: `None` and `0` are falsy. -/
def truthyInt : Option ℤ → Bool
  | none => false
  | some v => v != 0

/-- Python `str.upper()` applied to coupon codes (server.py:412):
per-character upper-casing. -/
def pyUpper (s : String) : String := ⟨s.data.map Char.toUpper⟩

/-- server.py:417-420: a naive expiry datetime gets
`replace(tzinfo=timezone.utc)`; its clock fields (and hence the instant
they denote read as UTC) are unchanged. -/
def normalizeExpiry (e : PyDatetime) : PyDatetime :=
  if e.aware then e else { e with aware := true }

/-- server.py:422: `if expiry and expiry < datetime.now(timezone.utc)`.
A `datetime` is always truthy; comparison of aware datetimes compares
the instants they denote. -/
def expiredCheck (now : ℤ) (expiry : Option PyDatetime) : Bool :=
  match expiry with
  | none => false
  | some e => decide (e.asUtc < now)

/-- `get_valid_coupon(code, subtotal)` (server.py:408-431): returns
`none` for a falsy code, otherwise looks the upper-cased code up in the
coupon store and runs the expiry, usage-limit and minimum-order checks
in that order. -/
def get_valid_coupon (store : List Coupon) (now : ℤ) (code : String)
    (subtotal : ℚ) : Except CouponError (Option Coupon) :=
  if code = "" then .ok none
  else
    match store.find? (fun c => c.code == pyUpper code) with
    | none => .error .notFound
    | some coupon =>
      if expiredCheck now (coupon.expiryDate.map normalizeExpiry) then
        .error .expired
      else if truthyInt coupon.usageLimit
          && decide (coupon.usageLimit.getD 0 ≤ coupon.usedCount) then
        .error .exhausted
      else if truthyQ coupon.minOrder
          && decide (subtotal < coupon.minOrder.getD 0) then
        .error .minimumNotMet
      else .ok (some coupon)

/-- Discount computed from a validated coupon (server.py:764-769):
percentage coupons get `subtotal * value / 100` capped at a truthy
`maxDiscount` when the discount exceeds it; any other kind yields the
coupon's value verbatim. -/
def computeDiscount (subtotal : ℚ) (c : Coupon) : ℚ :=
  if c.type = "percentage" then
    let d := subtotal * c.value / 100
    if truthyQ c.maxDiscount && decide (c.maxDiscount.getD 0 < d) then
      c.maxDiscount.getD 0
    else d
  else c.value

/-- server.py:755: `sum(item.price * item.quantity for item in items)`. -/
def subtotalOf (items : List CartItem) : ℚ :=
  (items.map (fun i => i.price * (i.quantity : ℚ))).sum

/-- server.py:776: `0 if (subtotal - discount) > 5000 else 99`. -/
def shippingOf (subtotal discount : ℚ) : ℚ :=
  if 5000 < subtotal - discount then 0 else 99

/-- server.py:777: `(subtotal - discount) * 0.18`. -/
def taxOf (subtotal discount : ℚ) : ℚ :=
  (subtotal - discount) * (18 / 100)

/-- server.py:778: `subtotal - discount + shipping + tax`, at full
precision. -/
def totalOf (subtotal discount : ℚ) : ℚ :=
  subtotal - discount + shippingOf subtotal discount + taxOf subtotal discount

/-- Python `round(x, 2)` at the persistence boundary
(server.py:800-804): round to an integer number of hundredths. -/
def round2 (q : ℚ) : ℚ :=
  ((round (q * 100) : ℤ) : ℚ) / 100

/-- `cart_collection.find_one({"userId": user_id})` followed by
`cart.get("items")` (server.py:743-744). -/
def cartItemsOf (st : DBState) (uid : String) : Option (List CartItem) :=
  (st.carts.find? (fun p => p.1 == uid)).map Prod.snd

/-- The coupon branch of `create_order` (server.py:759-774): a truthy
supplied code is evaluated; every coupon `HTTPException` is caught and
degrades to zero discount and no applied coupon. -/
def couponDiscount (store : List Coupon) (now : ℤ) (coupon_code : Option String)
    (subtotal : ℚ) : ℚ × Option Coupon :=
  match coupon_code with
  | none => (0, none)
  | some code =>
    if code = "" then (0, none)
    else
      match get_valid_coupon store now code subtotal with
      | .error _ => (0, none)
      | .ok none => (0, none)
      | .ok (some c) => (computeDiscount subtotal c, some c)

/-- Opening the remote gateway order (server.py:780-795): in mock mode
no call is made and a deterministic mock id is returned; otherwise one
call is attempted and any failure becomes a gateway error. -/
def openRemoteOrder (st : DBState) (mock : Bool) (gatewayResult : Except Unit String)
    (mockId : String) : DBState × Except Unit String :=
  if mock then (st, .ok mockId)
  else
    match gatewayResult with
    | .ok rid => ({ st with gatewayCalls := st.gatewayCalls + 1 }, .ok rid)
    | .error _ => ({ st with gatewayCalls := st.gatewayCalls + 1 }, .error ())

/-- `POST /orders/create` (server.py:740-821): load the cart (empty →
`EmptyCart`), evaluate an optional coupon with errors degraded to zero
discount, price the order, open a remote gateway transaction, persist a
`pending` order rounded to 2 decimals, and return the gateway handles. -/
def create_order (st : DBState) (now : ℤ) (user : PyUser)
    (coupon_code : Option String) (mock : Bool) (gatewayResult : Except Unit String)
    (mockId : String) (newOrderId : String) :
    DBState × Except CreateOrderError CreateOrderResult :=
  match cartItemsOf st user.id with
  | none => (st, .error .emptyCart)
  | some items =>
    if items.isEmpty then (st, .error .emptyCart)
    else
      let subtotal := subtotalOf items
      let dc := couponDiscount st.coupons now coupon_code subtotal
      let discount := dc.1
      let coupon_obj := dc.2
      let shipping := shippingOf subtotal discount
      let tax := taxOf subtotal discount
      let total := subtotal - discount + shipping + tax
      match openRemoteOrder st mock gatewayResult mockId with
      | (st1, .error _) => (st1, .error .gatewayError)
      | (st1, .ok rid) =>
        let newOrder : OrderDoc :=
          { orderId := newOrderId
            userId := user.id
            items := items
            amount := round2 total
            amount_subtotal := round2 subtotal
            amount_tax := round2 tax
            amount_shipping := round2 shipping
            amount_discount := round2 discount
            status := "pending"
            razorpay_order_id := rid
            razorpay_payment_id := none
            razorpay_signature := none
            address_name := user.name
            address_email := user.email
            coupon_code := coupon_obj.map Coupon.code
            created_at := now }
        ({ st1 with orders := st1.orders ++ [newOrder] },
         .ok { db_order_id := newOrderId
               razorpay_order_id := rid
               amount := round2 total
               user_name := user.name
               user_email := user.email })

/-- `POST /orders/verify` (server.py:824-867): verify the signature of
the three request-supplied strings (falsity, including transport
errors, fails closed with 400); look the order up by the request's db
order id (404 if absent); then set it `paid` recording payment id and
signature, clear the authenticated caller's cart, and increment the
used-count of the order's coupon code when one is present. -/
def verify_payment (st : DBState) (verifier : String → String → String → Bool)
    (currentUserId : String) (req : VerifyRequest) :
    DBState × Except VerifyError String :=
  if verifier req.razorpay_order_id req.razorpay_payment_id req.razorpay_signature then
    match st.orders.find? (fun o => o.orderId == req.db_order_id) with
    | none => (st, .error .orderNotFound)
    | some order =>
      let orders1 := st.orders.map (fun o =>
        if o.orderId == req.db_order_id then
          { o with status := "paid"
                   razorpay_payment_id := some req.razorpay_payment_id
                   razorpay_signature := some req.razorpay_signature }
        else o)
      let carts1 := st.carts.map (fun p =>
        if p.1 == currentUserId then (p.1, ([] : List CartItem)) else p)
      let coupons1 :=
        match order.coupon_code with
        | none => st.coupons
        | some cc => st.coupons.map (fun c =>
            if c.code == cc then { c with usedCount := c.usedCount + 1 } else c)
      ({ st with orders := orders1, carts := carts1, coupons := coupons1 },
       .ok "paid")
  else (st, .error .verificationFailed)

/-- Concrete coupon that is both expired and exhausted, for the C3
counterexample. -/
def c3ExpiredExhausted : Coupon :=
  { code := "SAVE", type := "fixed", value := 10, minOrder := none,
    maxDiscount := none, expiryDate := some ⟨0, false⟩,
    usageLimit := some 1, usedCount := 1, description := none }

/-- Concrete coupon with a zero usage limit, for the C3 counterexample. -/
def c3ZeroLimit : Coupon :=
  { code := "FREE", type := "fixed", value := 10, minOrder := none,
    maxDiscount := none, expiryDate := none,
    usageLimit := some 0, usedCount := 5, description := none }

/-- Concrete valid coupon used by the C3 witness. -/
def c3Plain : Coupon :=
  { code := "W", type := "fixed", value := 5, minOrder := none,
    maxDiscount := none, expiryDate := none,
    usageLimit := none, usedCount := 0, description := none }

/-- Concrete percentage coupon whose cap is set to zero, for the C4
counterexample. -/
def c4Coupon : Coupon :=
  { code := "PC20", type := "percentage", value := 20, minOrder := none,
    maxDiscount := some 0, expiryDate := none,
    usageLimit := none, usedCount := 0, description := none }

/-- Concrete coupon with all optional numeric fields set to zero, for
the C10 witness. -/
def c10Coupon : Coupon :=
  { code := "Z", type := "percentage", value := 10, minOrder := some 0,
    maxDiscount := some 0, expiryDate := none,
    usageLimit := some 0, usedCount := 7, description := none }

theorem normalizeExpiry_asUtc (e : PyDatetime) :
    (normalizeExpiry e).asUtc = e.asUtc := by
  unfold normalizeExpiry
  split <;> rfl

theorem expiredCheck_map_iff (now : ℤ) (o : Option PyDatetime) :
    expiredCheck now (o.map normalizeExpiry) = true
      ↔ ∃ e, o = some e ∧ e.asUtc < now := by
  cases o with
  | none => simp [expiredCheck]
  | some e => simp [expiredCheck, normalizeExpiry_asUtc]

theorem exhaustedCond_iff (c : Coupon) :
    (truthyInt c.usageLimit && decide (c.usageLimit.getD 0 ≤ c.usedCount)) = true
      ↔ ∃ L, c.usageLimit = some L ∧ L ≠ 0 ∧ L ≤ c.usedCount := by
  cases h : c.usageLimit with
  | none => simp [truthyInt, h]
  | some L => simp [truthyInt, h, bne_iff_ne]

theorem minCond_iff (subtotal : ℚ) (c : Coupon) :
    (truthyQ c.minOrder && decide (subtotal < c.minOrder.getD 0)) = true
      ↔ ∃ m, c.minOrder = some m ∧ m ≠ 0 ∧ subtotal < m := by
  cases h : c.minOrder with
  | none => simp [truthyQ, h]
  | some m => simp [truthyQ, h, bne_iff_ne]

theorem get_valid_coupon_found (store : List Coupon) (now : ℤ) (code : String)
    (subtotal : ℚ) (c : Coupon) (hc : code ≠ "")
    (hfind : store.find? (fun x => x.code == pyUpper code) = some c) :
    get_valid_coupon store now code subtotal =
      (if expiredCheck now (c.expiryDate.map normalizeExpiry) then
        Except.error CouponError.expired
      else if truthyInt c.usageLimit
          && decide (c.usageLimit.getD 0 ≤ c.usedCount) then
        Except.error CouponError.exhausted
      else if truthyQ c.minOrder && decide (subtotal < c.minOrder.getD 0) then
        Except.error CouponError.minimumNotMet
      else Except.ok (some c)) := by
  simp [get_valid_coupon, hc, hfind]

/-- C3: with a nonempty code, coupon evaluation fails `CouponNotFound`
exactly when no stored coupon matches the upper-cased code; when one
matches, the expiry check (a naive expiry read as UTC, strictly before
the current time), the usage-limit check (a nonzero limit the used
count has reached) and the minimum-order check (a nonzero minimum the
subtotal is strictly below) apply in that order, each error raised
exactly when its condition holds and every earlier check passed. -/
theorem get_valid_coupon_error_characterization (store : List Coupon) (now : ℤ)
    (code : String) (subtotal : ℚ) (hc : code ≠ "") :
    (get_valid_coupon store now code subtotal = Except.error CouponError.notFound
      ↔ store.find? (fun c => c.code == pyUpper code) = none)
    ∧ ∀ c, store.find? (fun x => x.code == pyUpper code) = some c →
        ((get_valid_coupon store now code subtotal = Except.error CouponError.expired
          ↔ ∃ e, c.expiryDate = some e ∧ e.asUtc < now)
        ∧ (get_valid_coupon store now code subtotal = Except.error CouponError.exhausted
          ↔ ¬(∃ e, c.expiryDate = some e ∧ e.asUtc < now)
            ∧ ∃ L, c.usageLimit = some L ∧ L ≠ 0 ∧ L ≤ c.usedCount)
        ∧ (get_valid_coupon store now code subtotal = Except.error CouponError.minimumNotMet
          ↔ ¬(∃ e, c.expiryDate = some e ∧ e.asUtc < now)
            ∧ ¬(∃ L, c.usageLimit = some L ∧ L ≠ 0 ∧ L ≤ c.usedCount)
            ∧ ∃ m, c.minOrder = some m ∧ m ≠ 0 ∧ subtotal < m)
        ∧ (get_valid_coupon store now code subtotal = Except.ok (some c)
          ↔ ¬(∃ e, c.expiryDate = some e ∧ e.asUtc < now)
            ∧ ¬(∃ L, c.usageLimit = some L ∧ L ≠ 0 ∧ L ≤ c.usedCount)
            ∧ ¬(∃ m, c.minOrder = some m ∧ m ≠ 0 ∧ subtotal < m))) := by
  constructor
  · cases hfind : store.find? (fun x => x.code == pyUpper code) with
    | none => simp [get_valid_coupon, hc, hfind]
    | some c =>
      rw [get_valid_coupon_found store now code subtotal c hc hfind]
      split_ifs <;> simp [hfind]
  · intro c hfind
    rw [get_valid_coupon_found store now code subtotal c hc hfind]
    have hE := expiredCheck_map_iff now c.expiryDate
    have hX := exhaustedCond_iff c
    have hM := minCond_iff subtotal c
    cases hb1 : expiredCheck now (c.expiryDate.map normalizeExpiry) <;>
      cases hb2 : (truthyInt c.usageLimit
        && decide (c.usageLimit.getD 0 ≤ c.usedCount)) <;>
      cases hb3 : (truthyQ c.minOrder && decide (subtotal < c.minOrder.getD 0)) <;>
      simp_all

/-- C3 counterexample: a coupon that is both expired and exhausted
fails with `CouponExpired`, not `CouponExhausted`, and a coupon whose
usage limit is set to `0` validates although its used count has reached
the limit — so each "exactly when" of the claim, read as a plain
biconditional, is false. -/
theorem get_valid_coupon_first_error_cex :
    get_valid_coupon [c3ExpiredExhausted] 100 "save" 50
        = Except.error CouponError.expired
    ∧ c3ExpiredExhausted.usageLimit = some 1
    ∧ 1 ≤ c3ExpiredExhausted.usedCount
    ∧ get_valid_coupon [c3ExpiredExhausted] 100 "save" 50
        ≠ Except.error CouponError.exhausted
    ∧ c3ZeroLimit.usageLimit = some 0
    ∧ c3ZeroLimit.usageLimit.getD 0 ≤ c3ZeroLimit.usedCount
    ∧ get_valid_coupon [c3ZeroLimit] 100 "free" 50
        = Except.ok (some c3ZeroLimit) := by
  refine ⟨rfl, rfl, by decide, fun h => ?_, rfl, by decide, rfl⟩
  rw [show get_valid_coupon [c3ExpiredExhausted] 100 "save" 50
        = Except.error CouponError.expired from rfl] at h
  injection h with h'
  exact absurd h' (by decide)

/-- C3 witness: the characterization applied to a concrete store,
coupon code and subtotal. -/
theorem get_valid_coupon_error_characterization_witness :
    get_valid_coupon [c3Plain] 0 "w" 10 = Except.error CouponError.notFound
      ↔ [c3Plain].find? (fun c => c.code == pyUpper "w") = none :=
  (get_valid_coupon_error_characterization [c3Plain] 0 "w" 10 (by decide)).1

/-- C4 (amended): for a percentage coupon the discount is
`subtotal * value / 100` capped at `maxDiscount` whenever a nonzero cap
is set (so it never exceeds such a cap); a cap that is absent or zero
leaves the discount uncapped; for any other coupon kind the discount is
the coupon's value verbatim, with no cap and no validation against the
subtotal. -/
theorem computeDiscount_characterization (subtotal : ℚ) (c : Coupon) :
    (c.type = "percentage" →
      (∀ m : ℚ, c.maxDiscount = some m → m ≠ 0 →
        computeDiscount subtotal c = min (subtotal * c.value / 100) m
        ∧ computeDiscount subtotal c ≤ m)
      ∧ ((c.maxDiscount = none ∨ c.maxDiscount = some 0) →
        computeDiscount subtotal c = subtotal * c.value / 100))
    ∧ (c.type ≠ "percentage" → computeDiscount subtotal c = c.value) := by
  refine ⟨fun htype => ⟨fun m hm hm0 => ?_, fun habs => ?_⟩, fun htype => ?_⟩
  · have hres : computeDiscount subtotal c
        = (if c.maxDiscount.getD 0 < subtotal * c.value / 100 then
            c.maxDiscount.getD 0
          else subtotal * c.value / 100) := by
      simp [computeDiscount, htype, hm, truthyQ, bne_iff_ne, hm0]
    rw [hres, hm]
    rcases lt_or_le m (subtotal * c.value / 100) with h | h
    · simp only [Option.getD_some, if_pos h]
      exact ⟨(min_eq_right h.le).symm, le_refl m⟩
    · simp only [Option.getD_some, if_neg (not_lt.mpr h)]
      exact ⟨(min_eq_left h).symm, h⟩
  · rcases habs with h | h <;> simp [computeDiscount, htype, h, truthyQ]
  · simp [computeDiscount, htype]

/-- C4 counterexample: a percentage coupon whose `maxDiscount` is set
to `0` is not capped: with value 20 and subtotal 10000 the discount is
2000, which exceeds the configured cap of 0. -/
theorem computeDiscount_zero_cap_cex :
    c4Coupon.type = "percentage"
    ∧ c4Coupon.maxDiscount = some 0
    ∧ computeDiscount 10000 c4Coupon = 2000
    ∧ ¬ computeDiscount 10000 c4Coupon ≤ 0 := by
  have h : computeDiscount 10000 c4Coupon = 10000 * 20 / 100 := by
    simp [computeDiscount, c4Coupon, truthyQ]
  refine ⟨rfl, rfl, ?_, ?_⟩
  · rw [h]; norm_num
  · rw [h]; norm_num

/-- C10: a coupon whose `usageLimit` is `0` is never rejected as
exhausted whatever its used count, a `minOrder` of `0` imposes no
minimum on any subtotal, and a percentage coupon with `maxDiscount = 0`
is uncapped — the source tests each optional field for truthiness, so
zero behaves as absent. -/
theorem coupon_zero_fields_treated_absent (store : List Coupon) (now : ℤ)
    (code : String) (subtotal : ℚ) (c : Coupon) (hc : code ≠ "")
    (hfind : store.find? (fun x => x.code == pyUpper code) = some c) :
    (c.usageLimit = some 0 →
      get_valid_coupon store now code subtotal ≠ Except.error CouponError.exhausted)
    ∧ (c.minOrder = some 0 →
      get_valid_coupon store now code subtotal ≠ Except.error CouponError.minimumNotMet)
    ∧ (c.maxDiscount = some 0 → c.type = "percentage" →
      computeDiscount subtotal c = subtotal * c.value / 100) := by
  rw [get_valid_coupon_found store now code subtotal c hc hfind]
  refine ⟨fun h0 => ?_, fun h0 => ?_, fun hmax htype => ?_⟩
  · simp only [truthyInt, h0]
    split_ifs <;> simp_all
  · simp only [truthyQ, h0]
    split_ifs <;> simp_all
  · simp [computeDiscount, htype, hmax, truthyQ]

/-- C10 witness: a concrete coupon with `usageLimit = 0` and used count
7 is not rejected as exhausted. -/
theorem coupon_zero_fields_treated_absent_witness :
    get_valid_coupon [c10Coupon] 0 "z" 5 ≠ Except.error CouponError.exhausted :=
  (coupon_zero_fields_treated_absent [c10Coupon] 0 "z" 5 c10Coupon
    (by decide) (by decide)).1 rfl

/-- Concrete line item for the C1 witness. -/
def c1Item : CartItem :=
  { id := "i1", productId := "p1", name := "Shirt", price := 1000,
    image := "u", category := "men", selectedSize := "M",
    selectedColor := "Black", quantity := 2 }

/-- Concrete line item for the C5 witness. -/
def c5Item : CartItem :=
  { id := "i5", productId := "p5", name := "Tee", price := 500,
    image := "u", category := "men", selectedSize := "L",
    selectedColor := "Blue", quantity := 1 }

/-- Concrete user for the C5 witness. -/
def c5User : PyUser := { id := "alice", name := "Alice", email := "a@x" }

/-- Concrete state with a one-item cart for the C5 witness. -/
def c5State : DBState :=
  { carts := [("alice", [c5Item])], orders := [], coupons := [],
    gatewayCalls := 0 }

/-- Concrete empty state for the C6 witness. -/
def c6State : DBState :=
  { carts := [], orders := [], coupons := [], gatewayCalls := 0 }

/-- Concrete user for the C6 witness. -/
def c6User : PyUser := { id := "bob", name := "Bob", email := "b@x" }

theorem round2_zero : round2 0 = 0 := by
  simp [round2]

theorem openRemoteOrder_state (st : DBState) (mock : Bool)
    (gw : Except Unit String) (mid : String) :
    (openRemoteOrder st mock gw mid).1.orders = st.orders
    ∧ (openRemoteOrder st mock gw mid).1.coupons = st.coupons
    ∧ (openRemoteOrder st mock gw mid).1.carts = st.carts := by
  cases mock <;> cases gw <;> simp [openRemoteOrder]

theorem create_order_ok_shape {st : DBState} {now : ℤ} {u : PyUser}
    {cc : Option String} {mock : Bool} {gw : Except Unit String}
    {mockId oid : String} {st' : DBState} {r : CreateOrderResult}
    (h : create_order st now u cc mock gw mockId oid = (st', Except.ok r)) :
    ∃ items rid,
      cartItemsOf st u.id = some items ∧ items.isEmpty = false
      ∧ st'.orders = st.orders ++
          [{ orderId := oid, userId := u.id, items := items,
             amount := round2 (totalOf (subtotalOf items)
               (couponDiscount st.coupons now cc (subtotalOf items)).1),
             amount_subtotal := round2 (subtotalOf items),
             amount_tax := round2 (taxOf (subtotalOf items)
               (couponDiscount st.coupons now cc (subtotalOf items)).1),
             amount_shipping := round2 (shippingOf (subtotalOf items)
               (couponDiscount st.coupons now cc (subtotalOf items)).1),
             amount_discount := round2
               (couponDiscount st.coupons now cc (subtotalOf items)).1,
             status := "pending", razorpay_order_id := rid,
             razorpay_payment_id := none, razorpay_signature := none,
             address_name := u.name, address_email := u.email,
             coupon_code := ((couponDiscount st.coupons now cc
               (subtotalOf items)).2).map Coupon.code,
             created_at := now }]
      ∧ r = { db_order_id := oid, razorpay_order_id := rid,
              amount := round2 (totalOf (subtotalOf items)
                (couponDiscount st.coupons now cc (subtotalOf items)).1),
              user_name := u.name, user_email := u.email }
      ∧ st'.coupons = st.coupons ∧ st'.carts = st.carts := by
  rcases hcart : cartItemsOf st u.id with _ | items
  · simp [create_order, hcart] at h
  · cases hne : items.isEmpty with
    | true => simp [create_order, hcart, hne] at h
    | false =>
      rcases hopen : openRemoteOrder st mock gw mockId with ⟨st1, res⟩
      have hst1 : st1 = (openRemoteOrder st mock gw mockId).1 := by rw [hopen]
      cases res with
      | error e => simp [create_order, hcart, hne, hopen] at h
      | ok rid =>
        simp only [create_order, hcart, hne, hopen, Bool.false_eq_true,
          if_false] at h
        obtain ⟨hst, hr⟩ := Prod.mk.injEq .. ▸ h
        refine ⟨items, rid, rfl, hne, ?_, ?_, ?_, ?_⟩
        · rw [← hst]
          simp only [totalOf]
          rw [hst1, (openRemoteOrder_state st mock gw mockId).1]
        · exact (Except.ok.inj hr).symm
        · rw [← hst, hst1]
          exact (openRemoteOrder_state st mock gw mockId).2.1
        · rw [← hst, hst1]
          exact (openRemoteOrder_state st mock gw mockId).2.2

theorem create_order_ok_of (st : DBState) (now : ℤ) (u : PyUser)
    (cc : Option String) (mock : Bool) (rid mockId oid : String)
    (items : List CartItem) (hcart : cartItemsOf st u.id = some items)
    (hne : items.isEmpty = false) :
    ∃ st' r, create_order st now u cc mock (Except.ok rid) mockId oid
      = (st', Except.ok r) := by
  cases mock <;> simp [create_order, hcart, hne, openRemoteOrder]

/-- C1: the subtotal is the sum of price times quantity over the items,
independent of item order; shipping is 0 when `subtotal - discount >
5000` and 99 otherwise; tax is `(subtotal - discount) * 0.18`; the
total is `subtotal - discount + shipping + tax`; and every order
persisted by a successful `create_order` stores exactly the 2-decimal
roundings of these full-precision values. -/
theorem create_order_pricing (items : List CartItem) (discount : ℚ)
    (hq : ∀ i ∈ items, 1 ≤ i.quantity) :
    subtotalOf items = (items.map (fun i => i.price * (i.quantity : ℚ))).sum
    ∧ (∀ items2 : List CartItem, items.Perm items2 →
        subtotalOf items2 = subtotalOf items)
    ∧ shippingOf (subtotalOf items) discount
        = (if 5000 < subtotalOf items - discount then (0 : ℚ) else 99)
    ∧ taxOf (subtotalOf items) discount
        = (subtotalOf items - discount) * (18 / 100)
    ∧ totalOf (subtotalOf items) discount
        = subtotalOf items - discount + shippingOf (subtotalOf items) discount
          + taxOf (subtotalOf items) discount
    ∧ (∀ (st : DBState) (now : ℤ) (u : PyUser) (cc : Option String)
        (mock : Bool) (gw : Except Unit String) (mockId oid : String)
        (st' : DBState) (r : CreateOrderResult),
        create_order st now u cc mock gw mockId oid = (st', Except.ok r) →
        ∃ o : OrderDoc, st'.orders = st.orders ++ [o]
          ∧ ∃ d : ℚ,
            o.amount_subtotal = round2 (subtotalOf o.items)
            ∧ o.amount_discount = round2 d
            ∧ o.amount_shipping = round2 (shippingOf (subtotalOf o.items) d)
            ∧ o.amount_tax = round2 (taxOf (subtotalOf o.items) d)
            ∧ o.amount = round2 (totalOf (subtotalOf o.items) d)
            ∧ r.amount = o.amount) := by
  refine ⟨rfl, fun items2 hperm => ?_, rfl, rfl, rfl, ?_⟩
  · exact ((hperm.map (fun i => i.price * (i.quantity : ℚ))).sum_eq).symm
  · intro st now u cc mock gw mockId oid st' r h
    obtain ⟨its, rid, hcart, hne, horders, hr, _, _⟩ := create_order_ok_shape h
    exact ⟨_, horders,
      (couponDiscount st.coupons now cc (subtotalOf its)).1,
      rfl, rfl, rfl, rfl, rfl, by rw [hr]⟩

/-- C1 witness: the shipping rule applied to a concrete one-item cart
(two units at price 1000) with discount 100. -/
theorem create_order_pricing_witness :
    shippingOf (subtotalOf [c1Item]) 100
      = (if 5000 < subtotalOf [c1Item] - 100 then (0 : ℚ) else 99) :=
  (create_order_pricing [c1Item] 100 (by decide)).2.2.1

/-- C5: when the supplied coupon code fails validation with any coupon
error, `create_order` still succeeds (the error is never propagated)
and the created order carries zero discount and no applied coupon
code. -/
theorem create_order_coupon_error_degrades (st : DBState) (now : ℤ)
    (u : PyUser) (code : String) (mock : Bool) (rid mockId oid : String)
    (items : List CartItem) (e : CouponError)
    (hcart : cartItemsOf st u.id = some items)
    (hne : items.isEmpty = false)
    (hcode : code ≠ "")
    (herr : get_valid_coupon st.coupons now code (subtotalOf items)
      = Except.error e) :
    ∃ st' r, create_order st now u (some code) mock (Except.ok rid) mockId oid
        = (st', Except.ok r)
      ∧ ∃ o, st'.orders = st.orders ++ [o]
        ∧ o.amount_discount = 0
        ∧ o.coupon_code = none := by
  obtain ⟨st', r, hco⟩ :=
    create_order_ok_of st now u (some code) mock rid mockId oid items hcart hne
  have hcd : couponDiscount st.coupons now (some code) (subtotalOf items)
      = (0, none) := by
    simp [couponDiscount, hcode, herr]
  obtain ⟨its, rid', hcart', hne', horders, hrr, _, _⟩ := create_order_ok_shape hco
  have hits : its = items := by
    rw [hcart] at hcart'
    exact (Option.some.inj hcart').symm
  subst hits
  refine ⟨st', r, hco, _, horders, ?_, ?_⟩
  · show round2 (couponDiscount st.coupons now (some code) (subtotalOf its)).1 = 0
    rw [hcd]
    exact round2_zero
  · show ((couponDiscount st.coupons now (some code) (subtotalOf its)).2).map
      Coupon.code = none
    rw [hcd]
    rfl

/-- C5 witness: a concrete cart with an unknown coupon code "X" still
produces an order, with zero discount and no coupon code. -/
theorem create_order_coupon_error_degrades_witness :
    ∃ st' r, create_order c5State 0 c5User (some "X") false (Except.ok "rid")
        "m" "o" = (st', Except.ok r)
      ∧ ∃ o, st'.orders = c5State.orders ++ [o]
        ∧ o.amount_discount = 0
        ∧ o.coupon_code = none :=
  create_order_coupon_error_degrades c5State 0 c5User "X" false "rid" "m" "o"
    [c5Item] CouponError.notFound rfl rfl (by decide) rfl

/-- C6: when the user's cart is absent or has zero items,
`create_order` fails with the `EmptyCart` error and the state is
unchanged — in particular no order document is created and no gateway
call is made. -/
theorem create_order_empty_cart (st : DBState) (now : ℤ) (u : PyUser)
    (cc : Option String) (mock : Bool) (gw : Except Unit String)
    (mockId oid : String)
    (h : cartItemsOf st u.id = none ∨ cartItemsOf st u.id = some []) :
    create_order st now u cc mock gw mockId oid
      = (st, Except.error CreateOrderError.emptyCart)
    ∧ (create_order st now u cc mock gw mockId oid).1.orders = st.orders
    ∧ (create_order st now u cc mock gw mockId oid).1.gatewayCalls
        = st.gatewayCalls := by
  have heq : create_order st now u cc mock gw mockId oid
      = (st, Except.error CreateOrderError.emptyCart) := by
    rcases h with h | h <;> simp [create_order, h]
  exact ⟨heq, by rw [heq], by rw [heq]⟩

/-- C6 witness: a user with no cart gets `EmptyCart` and the state is
returned untouched. -/
theorem create_order_empty_cart_witness :
    create_order c6State 0 c6User none false (Except.error ()) "m" "o"
      = (c6State, Except.error CreateOrderError.emptyCart) :=
  (create_order_empty_cart c6State 0 c6User none false (Except.error ()) "m" "o"
    (Or.inl rfl)).1

/-- Concrete pending order whose stored remote order id is "remote_A",
for the C2 counterexample. -/
def c2Order : OrderDoc :=
  { orderId := "ord1", userId := "alice", items := [], amount := 99,
    amount_subtotal := 0, amount_tax := 0, amount_shipping := 99,
    amount_discount := 0, status := "pending",
    razorpay_order_id := "remote_A", razorpay_payment_id := none,
    razorpay_signature := none, address_name := "Alice",
    address_email := "a@x", coupon_code := none, created_at := 0 }

/-- Concrete state holding only `c2Order`, for the C2 counterexample. -/
def c2State : DBState :=
  { carts := [], orders := [c2Order], coupons := [], gatewayCalls := 0 }

/-- Concrete gateway verifier that accepts exactly the remote order id
"remote_B", for the C2 counterexample. -/
def c2Verifier : String → String → String → Bool :=
  fun o _ _ => o == "remote_B"

/-- Concrete verification request naming remote order "remote_B" while
targeting the stored order `c2Order`, for the C2 counterexample. -/
def c2Req : VerifyRequest :=
  { razorpay_order_id := "remote_B", razorpay_payment_id := "pay1",
    razorpay_signature := "sig1", db_order_id := "ord1" }

/-- Concrete state and request for the C7 witness. -/
def c7State : DBState :=
  { carts := [], orders := [], coupons := [], gatewayCalls := 0 }

/-- Verifier that rejects everything, for the C7 witness. -/
def c7Verifier : String → String → String → Bool := fun _ _ _ => false

/-- Concrete request for the C7 witness. -/
def c7Req : VerifyRequest :=
  { razorpay_order_id := "rX", razorpay_payment_id := "pX",
    razorpay_signature := "sX", db_order_id := "oX" }

/-- Concrete line item sitting in the order owner's cart, for the C8
counterexample. -/
def c8Item : CartItem :=
  { id := "i8", productId := "p8", name := "Coat", price := 3000,
    image := "u", category := "women", selectedSize := "S",
    selectedColor := "Red", quantity := 1 }

/-- Concrete pending order owned by "alice", for the C8 counterexample
and witness. -/
def c8Order : OrderDoc :=
  { orderId := "o8", userId := "alice", items := [c8Item], amount := 3658,
    amount_subtotal := 3000, amount_tax := 540, amount_shipping := 99,
    amount_discount := 0, status := "pending", razorpay_order_id := "r8",
    razorpay_payment_id := none, razorpay_signature := none,
    address_name := "Alice", address_email := "a@x", coupon_code := none,
    created_at := 0 }

/-- Concrete state where "alice" owns both the order and a nonempty
cart, for the C8 counterexample and witness. -/
def c8State : DBState :=
  { carts := [("alice", [c8Item])], orders := [c8Order], coupons := [],
    gatewayCalls := 0 }

/-- Verifier that accepts everything (the mock-mode behaviour), for the
C8 counterexample and witness. -/
def c8Verifier : String → String → String → Bool := fun _ _ _ => true

/-- Concrete verification request for `c8Order`. -/
def c8Req : VerifyRequest :=
  { razorpay_order_id := "r8", razorpay_payment_id := "p8",
    razorpay_signature := "s8", db_order_id := "o8" }

/-- Concrete coupon already at its usage limit, for the C9 witness. -/
def c9Coupon : Coupon :=
  { code := "C9", type := "fixed", value := 50, minOrder := none,
    maxDiscount := none, expiryDate := none, usageLimit := some 1,
    usedCount := 1, description := none }

/-- Concrete order already in `paid` status carrying coupon "C9", for
the C9 witness. -/
def c9Order : OrderDoc :=
  { orderId := "o9", userId := "alice", items := [], amount := 99,
    amount_subtotal := 0, amount_tax := 0, amount_shipping := 99,
    amount_discount := 0, status := "paid", razorpay_order_id := "r9",
    razorpay_payment_id := some "p9", razorpay_signature := some "s9",
    address_name := "Alice", address_email := "a@x",
    coupon_code := some "C9", created_at := 0 }

/-- Concrete state holding the already-paid `c9Order`, for the C9
witness. -/
def c9State : DBState :=
  { carts := [("alice", [])], orders := [c9Order], coupons := [c9Coupon],
    gatewayCalls := 0 }

/-- Verifier that accepts everything, for the C9 witness. -/
def c9Verifier : String → String → String → Bool := fun _ _ _ => true

/-- Concrete replayed confirmation request for `c9Order`. -/
def c9Req : VerifyRequest :=
  { razorpay_order_id := "r9", razorpay_payment_id := "p9b",
    razorpay_signature := "s9b", db_order_id := "o9" }

theorem create_order_coupons_frame (st : DBState) (now : ℤ) (u : PyUser)
    (cc : Option String) (mock : Bool) (gw : Except Unit String)
    (mockId oid : String) :
    (create_order st now u cc mock gw mockId oid).1.coupons = st.coupons := by
  rcases hcart : cartItemsOf st u.id with _ | items
  · simp [create_order, hcart]
  · cases hne : items.isEmpty with
    | true => simp [create_order, hcart, hne]
    | false =>
      rcases hopen : openRemoteOrder st mock gw mockId with ⟨st1, res⟩
      have hst1 : st1.coupons = st.coupons := by
        have h1 : st1 = (openRemoteOrder st mock gw mockId).1 := by rw [hopen]
        rw [h1]
        exact (openRemoteOrder_state st mock gw mockId).2.1
      cases res with
      | error e => simp [create_order, hcart, hne, hopen, hst1]
      | ok rid => simp [create_order, hcart, hne, hopen, hst1]

/-- C2 (amended): `verify_payment` verifies the signature against the
three request-supplied strings — in particular the client-supplied
remote order id, not the order's stored one — and fails with
`PaymentVerificationFailed` (HTTP 400) exactly when that verification
returns false (a negative or errored gateway result). -/
theorem verify_payment_checks_request_signature (st : DBState)
    (verifier : String → String → String → Bool) (cu : String)
    (req : VerifyRequest) :
    verify_payment st verifier cu req
        = (st, Except.error VerifyError.verificationFailed)
      ↔ verifier req.razorpay_order_id req.razorpay_payment_id
          req.razorpay_signature = false := by
  constructor
  · intro h
    cases hv : verifier req.razorpay_order_id req.razorpay_payment_id
        req.razorpay_signature
    · rfl
    · exfalso
      rcases hfind : st.orders.find? (fun o => o.orderId == req.db_order_id)
        with _ | order
      · simp [verify_payment, hv, hfind] at h
      · simp [verify_payment, hv, hfind] at h
  · intro hv
    simp [verify_payment, hv]

/-- C2 counterexample: with the stored remote order id "remote_A" and a
gateway that only accepts "remote_B", a request naming "remote_B"
succeeds although verification of the stored id would fail — the
signature is checked against the client-supplied id, never the stored
one. -/
theorem verify_payment_ignores_stored_order_id_cex :
    c2Order.razorpay_order_id = "remote_A"
    ∧ c2State.orders.find? (fun o => o.orderId == c2Req.db_order_id)
        = some c2Order
    ∧ c2Verifier c2Order.razorpay_order_id c2Req.razorpay_payment_id
        c2Req.razorpay_signature = false
    ∧ (verify_payment c2State c2Verifier "alice" c2Req).2 = Except.ok "paid" :=
  ⟨rfl, rfl, rfl, rfl⟩

/-- C7: whenever signature verification yields false (wrong signature
or a transport error, both of which the source maps to a negative
result), `verify_payment` fails with `PaymentVerificationFailed` and
performs no state change: no order status change, no coupon increment,
no cart clearing. -/
theorem verify_payment_failure_no_state_change (st : DBState)
    (verifier : String → String → String → Bool) (cu : String)
    (req : VerifyRequest)
    (hv : verifier req.razorpay_order_id req.razorpay_payment_id
      req.razorpay_signature = false) :
    verify_payment st verifier cu req
      = (st, Except.error VerifyError.verificationFailed)
    ∧ (verify_payment st verifier cu req).1.orders = st.orders
    ∧ (verify_payment st verifier cu req).1.coupons = st.coupons
    ∧ (verify_payment st verifier cu req).1.carts = st.carts := by
  have heq : verify_payment st verifier cu req
      = (st, Except.error VerifyError.verificationFailed) := by
    simp [verify_payment, hv]
  exact ⟨heq, by rw [heq], by rw [heq], by rw [heq]⟩

/-- C7 witness: an always-rejecting verifier leaves a concrete state
untouched and yields the verification-failed error. -/
theorem verify_payment_failure_no_state_change_witness :
    verify_payment c7State c7Verifier "u" c7Req
      = (c7State, Except.error VerifyError.verificationFailed) :=
  (verify_payment_failure_no_state_change c7State c7Verifier "u" c7Req rfl).1

/-- C8 (amended): on a successful `verify_payment` the targeted order
is set to `paid` with the payment id and signature recorded, the
authenticated caller's cart is cleared (which is the owning user's cart
exactly when the owner is the caller — the source clears
`current_user`'s cart and never checks order ownership), the coupon
named by the order's coupon code has its used count incremented by
exactly 1 while every other coupon is untouched, orders with a coupon
code absent leave all coupons unchanged, and `create_order` (which
embeds coupon evaluation) never modifies the coupon collection. -/
theorem verify_payment_success_effects (st : DBState)
    (verifier : String → String → String → Bool) (cu : String)
    (req : VerifyRequest) (order : OrderDoc)
    (hv : verifier req.razorpay_order_id req.razorpay_payment_id
      req.razorpay_signature = true)
    (hfind : st.orders.find? (fun o => o.orderId == req.db_order_id)
      = some order) :
    (verify_payment st verifier cu req).2 = Except.ok "paid"
    ∧ (∀ o ∈ (verify_payment st verifier cu req).1.orders,
        o.orderId = req.db_order_id →
          o.status = "paid"
          ∧ o.razorpay_payment_id = some req.razorpay_payment_id
          ∧ o.razorpay_signature = some req.razorpay_signature)
    ∧ (∀ p ∈ (verify_payment st verifier cu req).1.carts,
        p.1 = cu → p.2 = [])
    ∧ (∀ p ∈ st.carts, p.1 ≠ cu →
        p ∈ (verify_payment st verifier cu req).1.carts)
    ∧ (order.coupon_code = none →
        (verify_payment st verifier cu req).1.coupons = st.coupons)
    ∧ (∀ cc, order.coupon_code = some cc →
        (verify_payment st verifier cu req).1.coupons.length
            = st.coupons.length
        ∧ ∀ i c, st.coupons.get? i = some c →
            (c.code = cc →
              (verify_payment st verifier cu req).1.coupons.get? i
                = some { c with usedCount := c.usedCount + 1 })
            ∧ (c.code ≠ cc →
              (verify_payment st verifier cu req).1.coupons.get? i = some c))
    ∧ (∀ (st2 : DBState) (now : ℤ) (u : PyUser) (cc2 : Option String)
        (mock : Bool) (gw : Except Unit String) (mockId oid : String),
        (create_order st2 now u cc2 mock gw mockId oid).1.coupons
          = st2.coupons) := by
  have hV : verify_payment st verifier cu req =
      ({ st with
          orders := st.orders.map (fun o =>
            if o.orderId == req.db_order_id then
              { o with status := "paid"
                       razorpay_payment_id := some req.razorpay_payment_id
                       razorpay_signature := some req.razorpay_signature }
            else o)
          carts := st.carts.map (fun p =>
            if p.1 == cu then (p.1, ([] : List CartItem)) else p)
          coupons :=
            match order.coupon_code with
            | none => st.coupons
            | some cc => st.coupons.map (fun c =>
                if c.code == cc then { c with usedCount := c.usedCount + 1 }
                else c) },
       Except.ok "paid") := by
    simp [verify_payment, hv, hfind]
  refine ⟨by rw [hV], ?_, ?_, ?_, ?_, ?_, ?_⟩
  · intro o ho hid
    rw [hV] at ho
    simp only [List.mem_map] at ho
    obtain ⟨o0, ho0, heq⟩ := ho
    by_cases h0 : o0.orderId = req.db_order_id
    · rw [← heq]
      simp [h0]
    · rw [← heq] at hid
      simp [h0] at hid
  · intro p hp hcu
    rw [hV] at hp
    simp only [List.mem_map] at hp
    obtain ⟨q, hq2, heq⟩ := hp
    by_cases hqc : q.1 = cu
    · rw [← heq]
      simp [hqc]
    · rw [← heq] at hcu
      simp [hqc] at hcu
  · intro p hp hne
    rw [hV]
    have hfix : (if p.1 == cu then (p.1, ([] : List CartItem)) else p) = p := by
      simp [hne]
    exact hfix ▸ List.mem_map_of_mem _ hp
  · intro hnone
    rw [hV]
    simp [hnone]
  · intro cc hcc
    have hV2 : (verify_payment st verifier cu req).1.coupons
        = st.coupons.map (fun c =>
            if c.code == cc then { c with usedCount := c.usedCount + 1 }
            else c) := by
      rw [hV]
      simp [hcc]
    simp only [hV2]
    refine ⟨by simp, ?_⟩
    intro i c hc
    rw [List.get?_map, hc]
    refine ⟨fun hcode => ?_, fun hcode => ?_⟩
    · simp [hcode]
    · simp [hcode]
  · intro st2 now u cc2 mock gw mockId oid
    exact create_order_coupons_frame st2 now u cc2 mock gw mockId oid

/-- C8 counterexample: a user "bob" who is not the order's owner calls
`verify_payment` on "alice"'s order; verification succeeds but the
owning user's nonempty cart is left untouched — it is the caller's cart
that gets cleared, not the owner's. -/
theorem verify_payment_clears_caller_cart_cex :
    c8Order.userId = "alice"
    ∧ c8State.carts = [("alice", [c8Item])]
    ∧ (verify_payment c8State c8Verifier "bob" c8Req).2 = Except.ok "paid"
    ∧ (verify_payment c8State c8Verifier "bob" c8Req).1.carts
        = [("alice", [c8Item])] :=
  ⟨rfl, rfl, rfl, rfl⟩

/-- C8 witness: the owner "alice" confirms her own order and the call
reports `paid`. -/
theorem verify_payment_success_effects_witness :
    (verify_payment c8State c8Verifier "alice" c8Req).2 = Except.ok "paid" :=
  (verify_payment_success_effects c8State c8Verifier "alice" c8Req c8Order
    rfl rfl).1

/-- C9: `verify_payment` has no precondition on the order's current
status: replayed on an order already `paid`, a verifying signature
succeeds again and re-applies every side effect — the order is set
`paid` again, the caller's cart is cleared again, and the order's
coupon gets its used count incremented again. -/
theorem verify_payment_not_idempotency_guarded (st : DBState)
    (verifier : String → String → String → Bool) (cu : String)
    (req : VerifyRequest) (order : OrderDoc)
    (hv : verifier req.razorpay_order_id req.razorpay_payment_id
      req.razorpay_signature = true)
    (hfind : st.orders.find? (fun o => o.orderId == req.db_order_id)
      = some order)
    (hpaid : order.status = "paid") :
    (verify_payment st verifier cu req).2 = Except.ok "paid"
    ∧ (∀ p ∈ (verify_payment st verifier cu req).1.carts,
        p.1 = cu → p.2 = [])
    ∧ (∀ cc, order.coupon_code = some cc →
        (verify_payment st verifier cu req).1.coupons
          = st.coupons.map (fun c =>
              if c.code == cc then { c with usedCount := c.usedCount + 1 }
              else c))
    ∧ (∀ o ∈ (verify_payment st verifier cu req).1.orders,
        o.orderId = req.db_order_id → o.status = "paid") := by
  have hV : verify_payment st verifier cu req =
      ({ st with
          orders := st.orders.map (fun o =>
            if o.orderId == req.db_order_id then
              { o with status := "paid"
                       razorpay_payment_id := some req.razorpay_payment_id
                       razorpay_signature := some req.razorpay_signature }
            else o)
          carts := st.carts.map (fun p =>
            if p.1 == cu then (p.1, ([] : List CartItem)) else p)
          coupons :=
            match order.coupon_code with
            | none => st.coupons
            | some cc => st.coupons.map (fun c =>
                if c.code == cc then { c with usedCount := c.usedCount + 1 }
                else c) },
       Except.ok "paid") := by
    simp [verify_payment, hv, hfind]
  refine ⟨by rw [hV], ?_, ?_, ?_⟩
  · intro p hp hcu
    rw [hV] at hp
    simp only [List.mem_map] at hp
    obtain ⟨q, hq2, heq⟩ := hp
    by_cases hqc : q.1 = cu
    · rw [← heq]
      simp [hqc]
    · rw [← heq] at hcu
      simp [hqc] at hcu
  · intro cc hcc
    rw [hV]
    simp [hcc]
  · intro o ho hid
    rw [hV] at ho
    simp only [List.mem_map] at ho
    obtain ⟨o0, ho0, heq⟩ := ho
    by_cases h0 : o0.orderId = req.db_order_id
    · rw [← heq]
      simp [h0]
    · rw [← heq] at hid
      simp [h0] at hid

/-- C9 witness: replaying a confirmation for the already-paid `c9Order`
succeeds again. -/
theorem verify_payment_not_idempotency_guarded_witness :
    (verify_payment c9State c9Verifier "alice" c9Req).2 = Except.ok "paid" :=
  (verify_payment_not_idempotency_guarded c9State c9Verifier "alice" c9Req
    c9Order rfl rfl rfl).1
